import Mathlib

/-!
Verification of the command-interpretation and reminder subsystem of
`src/Assistent.py` (a single-file voice assistant).

The embedding is shallow and executable:
* timestamps are natural numbers counting seconds (`datetime.now()` /
  `timedelta(minutes=m)` become `now` and `60 * m`);
* the global reminder list guarded by `reminder_lock` becomes a pure
  `List Reminder` threaded through the store operations;
* the side effects of `handle_command` (speaking, scheduling, invoking the
  weather/news lookup, opening the browser, exiting the loop) are recorded
  as an explicit `List Effect` trace;
* the external collaborators (the two extra `listen()` calls a branch may
  make, the network outcome of the weather/news HTTP request, the formatted
  clock strings) are supplied through an `Env` record, so every function is
  a computable `def`;
* all text handled here is ASCII speech transcription (no newlines), so
  Python's `\d`, `str.isdigit` and `str.lower` coincide with `Char.isDigit`
  and `Char.toLower`, and the regex metacharacter `.` matches every
  remaining character.
-/

/-! ### String primitives (Python `str` operations on `List Char`) -/

/-- Python `s.startswith(pat)` on character lists (`pat` first). -/
def startsWithL : List Char → List Char → Bool
  | [], _ => true
  | _ :: _, [] => false
  | p :: ps, c :: cs => p == c && startsWithL ps cs

/-- Python substring test `pat in s`. -/
def containsL (pat : List Char) : List Char → Bool
  | [] => startsWithL pat []
  | c :: rest => startsWithL pat (c :: rest) || containsL pat rest

/-- Python `s.strip()`: drop leading and trailing whitespace. -/
def stripL (l : List Char) : List Char :=
  ((l.dropWhile Char.isWhitespace).reverse.dropWhile Char.isWhitespace).reverse

/-- Python `s.lower()` (ASCII). -/
def lowerL (l : List Char) : List Char := l.map Char.toLower

/-- `text.lower().strip()`, the preprocessing at the top of `handle_command`. -/
def normalizeText (s : String) : List Char := stripL (lowerL s.data)

/-- Numeric value of a digit string, as Python `int` on a digit-only string. -/
def natOfDigits (ds : List Char) : Nat :=
  ds.foldl (fun n c => 10 * n + (c.toNat - 48)) 0

/-- `''.join(filter(str.isdigit, reply))`: keep only the digits. -/
def digitsOf (l : List Char) : List Char := l.filter Char.isDigit

/-- Python `s.split()`: split on whitespace runs, discarding empty words
(accumulator holds the current word reversed). -/
def wordsAux : List Char → List Char → List (List Char)
  | [], acc => if acc = [] then [] else [acc.reverse]
  | c :: rest, acc =>
    if c.isWhitespace then
      if acc = [] then wordsAux rest [] else acc.reverse :: wordsAux rest []
    else wordsAux rest (c :: acc)

/-- Python `s.split()` (no argument form). -/
def wordsL (l : List Char) : List (List Char) := wordsAux l []

/-- The sublist after the first occurrence of token `tok`, if `tok` occurs:
`parts[parts.index(tok)+1:]` guarded by `tok in parts`. -/
def afterTok : List (List Char) → List Char → Option (List (List Char))
  | [], _ => none
  | p :: ps, tok => if p = tok then some ps else afterTok ps tok

/-- Python `s.replace(pat, rep)` for a nonempty `pat`: scan left to right,
replacing every non-overlapping occurrence. The fuel argument (one unit per
consumed character, so `l.length` suffices) makes the recursion structural;
every step consumes at least one character of the scanned list. -/
def replaceAllGo (pat rep : List Char) : Nat → List Char → List Char
  | _, [] => []
  | 0, l => l
  | fuel + 1, c :: rest =>
    if pat ≠ [] ∧ startsWithL pat (c :: rest) = true then
      rep ++ replaceAllGo pat rep fuel (List.drop (pat.length - 1) rest)
    else
      c :: replaceAllGo pat rep fuel rest

/-- Python `s.replace(pat, rep)` for a nonempty `pat`. -/
def replaceAllL (pat rep l : List Char) : List Char :=
  replaceAllGo pat rep l.length l

/-! ### Reminder store (`reminders` list, `set_reminder_in`, `reminder_worker`) -/

/-- An entry of the global `reminders` list: the tuple `(when, message)`
where `when` is the fire time in seconds. -/
structure Reminder where
  fireAt : Nat
  message : String
deriving DecidableEq

/-- Store mutation of `set_reminder_in(minutes, message)`:
`when = datetime.now() + timedelta(minutes=minutes)` and
`reminders.append((when, message))` under the lock. -/
def set_reminder_in_store (now minutes : Nat) (message : String)
    (st : List Reminder) : List Reminder :=
  st ++ [⟨now + 60 * minutes, message⟩]

/-- One locked step of `reminder_worker`:
`due = [r for r in reminders if r[0] <= now]` and
`reminders[:] = [r for r in reminders if r[0] > now]`.
Returns `(due, remaining)`. -/
def pollAndRemoveDue (now : Nat) (st : List Reminder) :
    List Reminder × List Reminder :=
  (st.filter (fun r => decide (r.fireAt ≤ now)),
   st.filter (fun r => decide (now < r.fireAt)))

/-! ### Claim C1 -/

/-- Claim C1: for every positive `m` and string `msg`, scheduling computes
`fireAt = now + m` minutes and inserts the reminder pending; a poll strictly
before `fireAt` returns nothing and keeps it pending; a poll at or after
`fireAt` returns exactly that reminder `{fireAt, msg}` and removes it; and an
immediately repeated poll at the same instant returns nothing (at-most-once
delivery). -/
theorem schedule_then_poll_semantics (m : Nat) (msg : String)
    (now now1 now2 : Nat) (hm : 0 < m)
    (h1 : now1 < now + 60 * m) (h2 : now + 60 * m ≤ now2) :
    set_reminder_in_store now m msg [] = [⟨now + 60 * m, msg⟩] ∧
    pollAndRemoveDue now1 (set_reminder_in_store now m msg []) =
      ([], [⟨now + 60 * m, msg⟩]) ∧
    pollAndRemoveDue now2 (set_reminder_in_store now m msg []) =
      ([⟨now + 60 * m, msg⟩], []) ∧
    pollAndRemoveDue now2
      (pollAndRemoveDue now2 (set_reminder_in_store now m msg [])).2 =
      ([], []) := by
  have hA : decide (now + 60 * m ≤ now1) = false := decide_eq_false (by omega)
  have hB : decide (now1 < now + 60 * m) = true := decide_eq_true h1
  have hC : decide (now + 60 * m ≤ now2) = true := decide_eq_true h2
  have hD : decide (now2 < now + 60 * m) = false := decide_eq_false (by omega)
  refine ⟨rfl, ?_, ?_, ?_⟩ <;>
    simp [set_reminder_in_store, pollAndRemoveDue, List.filter, hA, hB, hC, hD]

/-- Instance of `schedule_then_poll_semantics` at `m = 1`, `now = 0`,
polling at 59 and then twice at 60 seconds. -/
theorem schedule_then_poll_semantics_inst :
    set_reminder_in_store 0 1 "tea" [] = [⟨60, "tea"⟩] ∧
    pollAndRemoveDue 59 (set_reminder_in_store 0 1 "tea" []) =
      ([], [⟨60, "tea"⟩]) ∧
    pollAndRemoveDue 60 (set_reminder_in_store 0 1 "tea" []) =
      ([⟨60, "tea"⟩], []) ∧
    pollAndRemoveDue 60
      (pollAndRemoveDue 60 (set_reminder_in_store 0 1 "tea" [])).2 =
      ([], []) :=
  schedule_then_poll_semantics 1 "tea" 0 59 60 (by decide) (by decide)
    (by decide)

/-! ### The regex of the duration branch

`re.search(r"remind me in (\d+) (minute|minutes|hour|hours) (?:to )?(.*)", text)`
is embedded as a deterministic matcher. Backtracking is resolved statically:
`(\d+)` must take the maximal digit run (a shorter run leaves a digit where
the following literal space is required); the unit alternation followed by a
literal space amounts to testing the prefixes `"minute "`, `"minutes "`,
`"hour "`, `"hours "` in that order; the greedy `(?:to )?(.*)` strips a
leading `"to "` if present and captures the rest of the text. `re.search`
tries every start position from the left. -/

/-- The unit alternation plus its mandatory following space. Returns
Python's `'hour' in unit` test of the matched alternative, and the rest. -/
def matchUnit (l : List Char) : Option (Bool × List Char) :=
  if startsWithL "minute ".data l then some (false, l.drop 7)
  else if startsWithL "minutes ".data l then some (false, l.drop 8)
  else if startsWithL "hour ".data l then some (true, l.drop 5)
  else if startsWithL "hours ".data l then some (true, l.drop 6)
  else none

/-- Try the full reminder pattern anchored at the start of `l`; on success
return the minutes (`value` or `value * 60` as in the source) and the
captured message `m.group(3)`. -/
def matchRemindAt (l : List Char) : Option (Nat × List Char) :=
  if startsWithL "remind me in ".data l then
    let r1 := l.drop 13
    if r1.takeWhile Char.isDigit = [] then none
    else
      match r1.dropWhile Char.isDigit with
      | ' ' :: r3 =>
        match matchUnit r3 with
        | some (isHour, r4) =>
          let msg := if startsWithL "to ".data r4 then r4.drop 3 else r4
          some (if isHour then natOfDigits (r1.takeWhile Char.isDigit) * 60
                else natOfDigits (r1.takeWhile Char.isDigit), msg)
        | none => none
      | _ => none
  else none

/-- `re.search` for the reminder pattern: first start position at which the
anchored match succeeds. -/
def reSearchRemind : List Char → Option (Nat × List Char)
  | [] => none
  | c :: rest =>
    match matchRemindAt (c :: rest) with
    | some r => some r
    | none => reSearchRemind rest

/-! ### Environment and effect trace of `handle_command` -/

/-- The external collaborators consulted while handling one command:
the configured API keys, the outcome the weather / news HTTP request would
have (success payload abstracts the formatted summary resp. the headline
titles; error abstracts `str(e)` of the raised exception), the results of
the up-to-two additional `listen()` calls a branch may perform (in order),
and the formatted clock strings of `datetime.now().strftime(...)`. -/
structure Env where
  openweather_api_key : String
  newsapi_key : String
  weatherNet : Except String String
  newsNet : Except String (List String)
  reply1 : String
  reply2 : String
  timeText : String
  dateText : String

/-- One observable side effect of handling a command: a `speak` call, a
reminder-store insertion, a call into `get_weather` / `get_top_news`, a
`webbrowser.open` for a search query (URL construction and escaping via
`requote_uri` belong to the external collaborator), or breaking out of
`main_loop`. -/
inductive Effect where
  | speak (text : String)
  | schedule (minutes : Nat) (message : String)
  | fetchWeather (city : String)
  | fetchNews (count : Nat)
  | browse (query : String)
  | exitLoop
deriving DecidableEq

/-- `DEFAULT_CITY` from the configuration section. -/
def DEFAULT_CITY : String := "New Delhi,IN"

/-- `get_weather(city)`: with no `OPENWEATHER_API_KEY` it returns the
key-missing reason before any `requests.get`; otherwise the outcome of the
HTTP request decides between a summary and `str(e)`. -/
def get_weather (env : Env) (city : String) : Option String × Option String :=
  if env.openweather_api_key = "" then
    (none, some "OpenWeather API key not set. Set OPENWEATHER_API_KEY environment variable.")
  else
    match env.weatherNet with
    | Except.ok summary => (some summary, none)
    | Except.error e => (none, some e)

/-- `get_top_news(count)`: with no `NEWSAPI_KEY` it returns the key-missing
reason before any `requests.get`; otherwise the outcome of the HTTP request
decides between the headline list and `str(e)`. -/
def get_top_news (env : Env) (count : Nat) :
    Option (List String) × Option String :=
  if env.newsapi_key = "" then
    (none, some "NewsAPI key not set. Set NEWSAPI_KEY environment variable.")
  else
    match env.newsNet with
    | Except.ok headlines => (some headlines, none)
    | Except.error e => (none, some e)

/-- Effects of `set_reminder_in(minutes, message)` seen from
`handle_command`: the store insertion and the confirmation speech. -/
def set_reminder_in (minutes : Nat) (message : String) : List Effect :=
  [Effect.schedule minutes message,
   Effect.speak ("Okay. I will remind you in " ++ toString minutes ++
     " minutes about " ++ message ++ ".")]

/-- The weather branch after city extraction: call `get_weather`, then
speak either the apology with the reason or the summary. An absent summary
would print as Python `None`; the branch is unreachable. -/
def weatherEffects (env : Env) (city : String) : List Effect :=
  Effect.fetchWeather city ::
    match get_weather env city with
    | (_, some err) =>
      [Effect.speak ("Sorry, I couldn\x27t fetch weather. " ++ err)]
    | (w, none) =>
      [Effect.speak ("Weather in " ++ city ++ ": " ++ w.getD "None")]

/-- The news branch: call `get_top_news(5)`, then speak either the apology
with the reason, or the intro followed by each headline. -/
def newsEffects (env : Env) : List Effect :=
  Effect.fetchNews 5 ::
    match get_top_news env 5 with
    | (_, some err) =>
      [Effect.speak ("Sorry, can\x27t fetch news: " ++ err)]
    | (hs, none) =>
      Effect.speak "Here are the top headlines." ::
        (hs.getD []).map (fun h => Effect.speak h)

/-- City extraction of the weather branch: `parts = text.split()`, and if
the token `'in'` occurs, the city is the space-join of the tokens after its
first occurrence, else `DEFAULT_CITY` (the `try/except` around `index` can
never fire once `'in' in parts` holds). -/
def extractCity (t : List Char) : String :=
  match afterTok (wordsL t) "in".data with
  | none => DEFAULT_CITY
  | some rest => String.mk (List.intercalate [' '] rest)

/-- Query construction of the search branch:
`text.replace('search for','').replace('google','').replace('search','').strip()`. -/
def searchQuery (t : List Char) : List Char :=
  stripL (replaceAllL "search".data []
    (replaceAllL "google".data [] (replaceAllL "search for".data [] t)))

/-- The branch chain of `handle_command` on the already lowercased and
stripped text, producing the effect trace. Branch order and all guard
strings follow the source: empty text, the `"remind me in"` duration
pattern, the two-step dialog, weather, news/headlines, time, date, search,
greetings, thanks, fallback. -/
def handleText (env : Env) (text : List Char) : List Effect :=
  if text.isEmpty then [Effect.speak "I didn\x27t catch that. Please repeat."]
  else if containsL "remind me in".data text then
    match reSearchRemind text with
    | some (minutes, msgC) =>
      set_reminder_in minutes
        (if msgC = [] then "your task" else String.mk msgC)
    | none => [Effect.speak "Please say: remind me in X minutes to do Y."]
  else if startsWithL "set reminder".data text ||
      startsWithL "remind me to".data text then
    Effect.speak "For when should I set the reminder? Say in how many minutes." ::
      (if digitsOf env.reply1.data = [] then
        [Effect.speak "I couldn\x27t parse the time. Reminder cancelled."]
      else
        Effect.speak "What should I remind you about?" ::
          set_reminder_in (natOfDigits (digitsOf env.reply1.data))
            (if env.reply2 = "" then "your task" else env.reply2))
  else if containsL "weather".data text then
    weatherEffects env (extractCity text)
  else if containsL "news".data text || containsL "headlines".data text then
    newsEffects env
  else if containsL "time".data text then
    [Effect.speak ("The time is " ++ env.timeText)]
  else if containsL "date".data text then
    [Effect.speak ("Today is " ++ env.dateText)]
  else if startsWithL "search for".data text ||
      startsWithL "google".data text || containsL "search".data text then
    if searchQuery text = [] then
      Effect.speak "What should I search for?" ::
        (if env.reply1 = "" then []
         else [Effect.speak ("Searching for " ++ env.reply1 ++ " on the web."),
               Effect.browse env.reply1])
    else
      [Effect.speak ("Searching for " ++ String.mk (searchQuery text) ++
        " on the web."),
       Effect.browse (String.mk (searchQuery text))]
  else if containsL "hello".data text || containsL "hi".data text ||
      containsL "hey".data text then
    [Effect.speak "Hello! How can I help you?"]
  else if containsL "thank".data text then
    [Effect.speak "You are welcome!"]
  else
    [Effect.speak ("Sorry, I don\x27t have a built-in action for that. " ++
      "I can search the web if you like. Say \x27search\x27 followed by your query.")]

/-- `handle_command(text)`: lowercase and strip, then dispatch. -/
def handle_command (env : Env) (input : String) : List Effect :=
  handleText env (normalizeText input)

/-- The per-command processing of `main_loop`: a recognized command is first
checked against the exit phrases (`'quit'`, `'exit'`, `'stop assistant'` as
substrings), which speaks the farewell and breaks the loop; only otherwise
is `handle_command` invoked. -/
def process_command (env : Env) (cmd : String) : List Effect :=
  if containsL "quit".data cmd.data || containsL "exit".data cmd.data ||
      containsL "stop assistant".data cmd.data then
    [Effect.speak "Goodbye!", Effect.exitLoop]
  else
    handle_command env cmd

/-- Whether a trace contains a reminder-store insertion. -/
def hasSchedule (effects : List Effect) : Bool :=
  effects.any fun e =>
    match e with
    | Effect.schedule _ _ => true
    | _ => false

/-- A baseline environment: no API keys, unreachable network, both extra
listens time out (empty text). -/
def env0 : Env :=
  { openweather_api_key := ""
    newsapi_key := ""
    weatherNet := Except.error "network unreachable"
    newsNet := Except.error "network unreachable"
    reply1 := ""
    reply2 := ""
    timeText := "09:15 AM"
    dateText := "Monday, January 05, 2026" }

/-- `env0` but the first extra listen hears `"10"`. -/
def env1 : Env := { env0 with reply1 := "10" }

/-- `env0` but both network requests would succeed (keys still unset). -/
def envNet : Env :=
  { env0 with
    weatherNet := Except.ok "clear sky, temperature 21, feels like 20"
    newsNet := Except.ok ["first headline", "second headline"] }

/-! ### Branch lemmas for `handleText` on abstract text -/

/-- With the trigger phrase present but the full pattern failing, the
duration branch speaks the usage hint only. -/
lemma handleText_malformed_reminder (env : Env) (t : List Char)
    (h1 : containsL "remind me in".data t = true)
    (h2 : reSearchRemind t = none) :
    handleText env t =
      [Effect.speak "Please say: remind me in X minutes to do Y."] := by
  cases t with
  | nil => exact absurd h1 (by decide)
  | cons a as => simp [handleText, h1, h2]

/-- The two-step dialog with a digit-free first reply cancels. -/
lemma handleText_dialog_cancel (env : Env) (t : List Char)
    (h0 : containsL "remind me in".data t = false)
    (h1 : (startsWithL "set reminder".data t ||
      startsWithL "remind me to".data t) = true)
    (hd : digitsOf env.reply1.data = []) :
    handleText env t =
      [Effect.speak "For when should I set the reminder? Say in how many minutes.",
       Effect.speak "I couldn\x27t parse the time. Reminder cancelled."] := by
  cases t with
  | nil => exact absurd h1 (by decide)
  | cons a as => simp [handleText, h0, h1, hd]

/-- The two-step dialog with digits in the first reply and an empty second
reply schedules the reminder with the default message. -/
lemma handleText_dialog_default_message (env : Env) (t : List Char)
    (h0 : containsL "remind me in".data t = false)
    (h1 : (startsWithL "set reminder".data t ||
      startsWithL "remind me to".data t) = true)
    (hd : digitsOf env.reply1.data ≠ [])
    (h2 : env.reply2 = "") :
    handleText env t =
      Effect.speak "For when should I set the reminder? Say in how many minutes." ::
        Effect.speak "What should I remind you about?" ::
          set_reminder_in (natOfDigits (digitsOf env.reply1.data)) "your task" := by
  cases t with
  | nil => exact absurd h1 (by decide)
  | cons a as => simp [handleText, h0, h1, hd, h2]

/-- The weather branch dispatches on the extracted city. -/
lemma handleText_weather (env : Env) (t : List Char)
    (h0 : containsL "remind me in".data t = false)
    (h1 : startsWithL "set reminder".data t = false)
    (h2 : startsWithL "remind me to".data t = false)
    (h3 : containsL "weather".data t = true) :
    handleText env t = weatherEffects env (extractCity t) := by
  cases t with
  | nil => exact absurd h3 (by decide)
  | cons a as => simp [handleText, h0, h1, h2, h3]

/-- The search branch: with a nonempty constructed query, speak and browse
it; with an empty one, prompt, listen once more, and browse that reply if
it is nonempty. -/
lemma handleText_search (env : Env) (t : List Char)
    (h0 : containsL "remind me in".data t = false)
    (h1 : startsWithL "set reminder".data t = false)
    (h2 : startsWithL "remind me to".data t = false)
    (h3 : containsL "weather".data t = false)
    (h4 : containsL "news".data t = false)
    (h5 : containsL "headlines".data t = false)
    (h6 : containsL "time".data t = false)
    (h7 : containsL "date".data t = false)
    (h8 : (startsWithL "search for".data t || startsWithL "google".data t ||
      containsL "search".data t) = true) :
    (searchQuery t ≠ [] →
      handleText env t =
        [Effect.speak ("Searching for " ++ String.mk (searchQuery t) ++
           " on the web."),
         Effect.browse (String.mk (searchQuery t))]) ∧
    (searchQuery t = [] →
      handleText env t =
        Effect.speak "What should I search for?" ::
          (if env.reply1 = "" then []
           else [Effect.speak ("Searching for " ++ env.reply1 ++ " on the web."),
                 Effect.browse env.reply1])) := by
  cases t with
  | nil => exact absurd h8 (by decide)
  | cons a as =>
    constructor <;> intro hq <;>
      simp [handleText, h0, h1, h2, h3, h4, h5, h6, h7, h8, hq]

/-! ### Claim C2 -/

/-- Counterexample to claim C2: `"remind me in 2 hours"` (no trailing
message) does not parse — the pattern demands a space after the unit, which
`strip()` has removed — so the usage hint is spoken and nothing is
scheduled, instead of the claimed `minutes = 120` reminder with the default
message. -/
theorem hour_without_message_is_malformed :
    handle_command env0 "remind me in 2 hours" =
      [Effect.speak "Please say: remind me in X minutes to do Y."] ∧
    hasSchedule (handle_command env0 "remind me in 2 hours") = false :=
  ⟨rfl, rfl⟩

/-- Claim C2 (amended): parsing `"remind me in 2 hours"` with no trailing
message yields the malformed-reminder response (usage hint, nothing
scheduled), because the duration pattern requires a space and a message
after the unit; an hour duration with a message is converted to minutes by
multiplying by 60, e.g. `"remind me in 2 hours to rest"` yields
`minutes = 120` and message `"rest"`. -/
theorem hour_duration_parsing (env : Env) :
    handle_command env "remind me in 2 hours" =
      [Effect.speak "Please say: remind me in X minutes to do Y."] ∧
    handle_command env "remind me in 2 hours to rest" =
      [Effect.schedule 120 "rest",
       Effect.speak "Okay. I will remind you in 120 minutes about rest."] :=
  ⟨rfl, rfl⟩

/-! ### Claim C3 -/

/-- Claim C3: parsing `"remind me in 10 minutes to check the oven"` yields
a reminder with `minutes = 10` and message `"check the oven"` — the numeric
value is taken verbatim for minute units and the words after the optional
`"to"` form the message. -/
theorem minutes_with_message_parses (env : Env) :
    handle_command env "remind me in 10 minutes to check the oven" =
      [Effect.schedule 10 "check the oven",
       Effect.speak "Okay. I will remind you in 10 minutes about check the oven."] :=
  rfl

/-! ### Claim C8 -/

/-- Claim C8: for every text containing the trigger phrase
`"remind me in"` that does not match the full duration pattern, the result
is the malformed-reminder outcome: the usage hint is spoken and no reminder
is scheduled. -/
theorem trigger_without_full_match_is_malformed (env : Env) (input : String)
    (h1 : containsL "remind me in".data (normalizeText input) = true)
    (h2 : reSearchRemind (normalizeText input) = none) :
    handle_command env input =
      [Effect.speak "Please say: remind me in X minutes to do Y."] ∧
    hasSchedule (handle_command env input) = false := by
  have h := handleText_malformed_reminder env (normalizeText input) h1 h2
  exact ⟨h, by rw [show handle_command env input =
    handleText env (normalizeText input) from rfl, h]; rfl⟩

/-- Witness for C8 at the non-numeric input
`"remind me in ten minutes to call mom"`. -/
theorem trigger_without_full_match_is_malformed_inst :
    handle_command env0 "remind me in ten minutes to call mom" =
      [Effect.speak "Please say: remind me in X minutes to do Y."] ∧
    hasSchedule (handle_command env0 "remind me in ten minutes to call mom") =
      false :=
  trigger_without_full_match_is_malformed env0
    "remind me in ten minutes to call mom" (by decide) (by decide)

/-! ### Claim C4 -/

/-- Counterexample to claim C4: the duration `0` is numeric, so the parser
accepts it and the store operation is reached with `minutes = 0`, which is
not strictly positive. -/
theorem zero_minutes_reaches_store :
    Effect.schedule 0 "test" ∈
      handle_command env0 "remind me in 0 minutes to test" := by decide

/-- Claim C4 (amended): non-numeric durations are rejected before the store
operation is reached — a failing duration pattern, or an interactive reply
containing no digit, produces no schedule call — but the parsed minutes
value is only a nonnegative integer built from digits: zero is not rejected
and reaches the store. -/
theorem nonnumeric_duration_rejected (env : Env) (input : String) :
    (containsL "remind me in".data (normalizeText input) = true →
      reSearchRemind (normalizeText input) = none →
      hasSchedule (handle_command env input) = false) ∧
    (containsL "remind me in".data (normalizeText input) = false →
      (startsWithL "set reminder".data (normalizeText input) ||
        startsWithL "remind me to".data (normalizeText input)) = true →
      digitsOf env.reply1.data = [] →
      hasSchedule (handle_command env input) = false) := by
  constructor
  · intro h1 h2
    rw [show handle_command env input =
      handleText env (normalizeText input) from rfl,
      handleText_malformed_reminder env (normalizeText input) h1 h2]
    rfl
  · intro h0 h1 hd
    rw [show handle_command env input =
      handleText env (normalizeText input) from rfl,
      handleText_dialog_cancel env (normalizeText input) h0 h1 hd]
    rfl

/-- Witness for the amended C4: a non-numeric duration phrase and a
digit-free interactive reply both leave the trace without a schedule. -/
theorem nonnumeric_duration_rejected_inst :
    hasSchedule (handle_command env0 "remind me in a few minutes to stretch") =
      false ∧
    hasSchedule (handle_command env0 "set reminder") = false :=
  ⟨(nonnumeric_duration_rejected env0
      "remind me in a few minutes to stretch").1 (by decide) (by decide),
   (nonnumeric_duration_rejected env0 "set reminder").2 (by decide)
     (by decide) (by decide)⟩

/-! ### Claim C5 -/

/-- Counterexample to claim C5: for `"weather in"` the handler invokes the
weather lookup with the empty city, not with the configured default. -/
theorem weather_trailing_in_queries_empty_city :
    Effect.fetchWeather "" ∈ handle_command env0 "weather in" ∧
    Effect.fetchWeather DEFAULT_CITY ∉ handle_command env0 "weather in" := by
  decide

/-- Claim C5 (amended): for every weather command in which the first
occurrence of the token `"in"` is the final token (e.g. `"weather in"`),
the extracted city is the empty string and the handler invokes the weather
lookup with that empty city; it does not fall back to the configured
default city. -/
theorem weather_trailing_in_no_fallback (env : Env) (input : String)
    (h0 : containsL "remind me in".data (normalizeText input) = false)
    (h1 : startsWithL "set reminder".data (normalizeText input) = false)
    (h2 : startsWithL "remind me to".data (normalizeText input) = false)
    (h3 : containsL "weather".data (normalizeText input) = true)
    (h4 : afterTok (wordsL (normalizeText input)) "in".data = some []) :
    extractCity (normalizeText input) = "" ∧
    handle_command env input = weatherEffects env "" := by
  have hc : extractCity (normalizeText input) = "" := by
    unfold extractCity
    rw [h4]
    rfl
  refine ⟨hc, ?_⟩
  rw [show handle_command env input =
    handleText env (normalizeText input) from rfl,
    handleText_weather env (normalizeText input) h0 h1 h2 h3, hc]

/-- Witness for the amended C5 at `"weather in"`. -/
theorem weather_trailing_in_no_fallback_inst :
    extractCity (normalizeText "weather in") = "" ∧
    handle_command env0 "weather in" = weatherEffects env0 "" :=
  weather_trailing_in_no_fallback env0 "weather in" (by decide) (by decide)
    (by decide) (by decide) (by decide)

/-! ### Claim C6 -/

/-- Counterexample to claim C6: with minute reply `"10"` and an empty
message reply, the sub-flow is not cancelled — a reminder is still added
(with the default message). -/
theorem empty_message_reply_still_schedules :
    env1.reply2 = "" ∧
    hasSchedule (handle_command env1 "set reminder") = true := by decide

/-- Claim C6 (amended): in the interactive two-step dialog, an empty (or
digit-free) minute reply cancels the sub-flow with a spoken notice and adds
no reminder; an empty message reply, however, does not cancel — the message
defaults to `"your task"` and the reminder is still added. -/
theorem dialog_empty_listen_behavior (env : Env) (input : String)
    (h0 : containsL "remind me in".data (normalizeText input) = false)
    (h1 : (startsWithL "set reminder".data (normalizeText input) ||
      startsWithL "remind me to".data (normalizeText input)) = true) :
    (digitsOf env.reply1.data = [] →
      handle_command env input =
        [Effect.speak "For when should I set the reminder? Say in how many minutes.",
         Effect.speak "I couldn\x27t parse the time. Reminder cancelled."]) ∧
    (digitsOf env.reply1.data ≠ [] → env.reply2 = "" →
      handle_command env input =
        Effect.speak "For when should I set the reminder? Say in how many minutes." ::
          Effect.speak "What should I remind you about?" ::
            set_reminder_in (natOfDigits (digitsOf env.reply1.data))
              "your task") := by
  constructor
  · intro hd
    exact handleText_dialog_cancel env (normalizeText input) h0 h1 hd
  · intro hd h2
    exact handleText_dialog_default_message env (normalizeText input) h0 h1 hd h2

/-- Witness for the amended C6: the cancel path on an empty minute reply
and the default-message path on an empty message reply. -/
theorem dialog_empty_listen_behavior_inst :
    handle_command env0 "set reminder" =
      [Effect.speak "For when should I set the reminder? Say in how many minutes.",
       Effect.speak "I couldn\x27t parse the time. Reminder cancelled."] ∧
    handle_command env1 "set reminder" =
      Effect.speak "For when should I set the reminder? Say in how many minutes." ::
        Effect.speak "What should I remind you about?" ::
          set_reminder_in 10 "your task" :=
  ⟨(dialog_empty_listen_behavior env0 "set reminder" (by decide)
      (by decide)).1 (by decide),
   (dialog_empty_listen_behavior env1 "set reminder" (by decide)
      (by decide)).2 (by decide) rfl⟩

/-! ### Claim C7 -/

/-- Counterexample to claim C7: `"remind me in 5 minutes to exit the
building"` matches the reminder-with-duration pattern, yet `main_loop`
checks the exit phrases first, so the session says goodbye and exits
without scheduling anything — the earlier rule does not win. -/
theorem exit_preempts_reminder_rule :
    reSearchRemind
      (normalizeText "remind me in 5 minutes to exit the building") =
      some (5, "exit the building".data) ∧
    process_command env0 "remind me in 5 minutes to exit the building" =
      [Effect.speak "Goodbye!", Effect.exitLoop] ∧
    hasSchedule
      (process_command env0 "remind me in 5 minutes to exit the building") =
      false := by decide

/-- Claim C7 (amended): the exit check runs in the session loop before any
classification rule: a command containing `"quit"`, `"exit"` or
`"stop assistant"` produces Exit even when an earlier rule of
`handle_command` matches it; only commands containing no exit phrase are
classified by `handle_command`, whose rules then apply first-match-wins in
the fixed order. -/
theorem exit_checked_before_all_rules (env : Env) (cmd : String) :
    ((containsL "quit".data cmd.data || containsL "exit".data cmd.data ||
      containsL "stop assistant".data cmd.data) = true →
      process_command env cmd = [Effect.speak "Goodbye!", Effect.exitLoop]) ∧
    ((containsL "quit".data cmd.data || containsL "exit".data cmd.data ||
      containsL "stop assistant".data cmd.data) = false →
      process_command env cmd = handle_command env cmd) := by
  constructor <;> intro h <;> simp [process_command, h]

/-- Witness for the amended C7: an exit phrase wins even mid-sentence, and
an exit-free command is passed on to `handle_command`. -/
theorem exit_checked_before_all_rules_inst :
    process_command env0 "please stop assistant now" =
      [Effect.speak "Goodbye!", Effect.exitLoop] ∧
    process_command env0 "hello there" = handle_command env0 "hello there" :=
  ⟨(exit_checked_before_all_rules env0 "please stop assistant now").1
      (by decide),
   (exit_checked_before_all_rules env0 "hello there").2 (by decide)⟩

/-! ### Claim C9 -/

/-- Claim C9: with the weather (resp. news) API credential unset,
`get_weather` (resp. `get_top_news`) returns an absent result and the error
reason naming the missing key, independently of the outcome any network
request would have had (none is attempted), and the handler speaks an
apology including that reason. -/
theorem missing_key_reported_without_network (env : Env)
    (hw : env.openweather_api_key = "") (hn : env.newsapi_key = "") :
    (∀ city, get_weather env city =
      (none, some "OpenWeather API key not set. Set OPENWEATHER_API_KEY environment variable.")) ∧
    (∀ count, get_top_news env count =
      (none, some "NewsAPI key not set. Set NEWSAPI_KEY environment variable.")) ∧
    handle_command env "weather" =
      [Effect.fetchWeather DEFAULT_CITY,
       Effect.speak ("Sorry, I couldn\x27t fetch weather. " ++
         "OpenWeather API key not set. Set OPENWEATHER_API_KEY environment variable.")] ∧
    handle_command env "news" =
      [Effect.fetchNews 5,
       Effect.speak ("Sorry, can\x27t fetch news: " ++
         "NewsAPI key not set. Set NEWSAPI_KEY environment variable.")] := by
  refine ⟨fun city => ?_, fun count => ?_, ?_, ?_⟩
  · simp [get_weather, hw]
  · simp [get_top_news, hn]
  · rw [show handle_command env "weather" =
      weatherEffects env DEFAULT_CITY from rfl]
    simp [weatherEffects, get_weather, hw]
  · rw [show handle_command env "news" = newsEffects env from rfl]
    simp [newsEffects, get_top_news, hn]

/-- Witness for C9 in an environment whose network requests would have
succeeded: the key-missing reason is still returned, showing the network
outcome is never consulted. -/
theorem missing_key_reported_without_network_inst :
    get_weather envNet "Paris" =
      (none, some "OpenWeather API key not set. Set OPENWEATHER_API_KEY environment variable.") ∧
    get_top_news envNet 3 =
      (none, some "NewsAPI key not set. Set NEWSAPI_KEY environment variable.") ∧
    handle_command envNet "weather" =
      [Effect.fetchWeather DEFAULT_CITY,
       Effect.speak ("Sorry, I couldn\x27t fetch weather. " ++
         "OpenWeather API key not set. Set OPENWEATHER_API_KEY environment variable.")] ∧
    handle_command envNet "news" =
      [Effect.fetchNews 5,
       Effect.speak ("Sorry, can\x27t fetch news: " ++
         "NewsAPI key not set. Set NEWSAPI_KEY environment variable.")] := by
  obtain ⟨a, b, c, d⟩ := missing_key_reported_without_network envNet rfl rfl
  exact ⟨a "Paris", b 3, c, d⟩

/-! ### Claim C10 -/

/-- Claim C10: the web-search rule fires on any text containing `"search"`
as a substring (once no earlier rule matches), the query is built by
deleting every occurrence of `"search for"`, `"google"` and `"search"` in
that order and trimming, and an empty query triggers one more listen before
any browser launch. -/
theorem search_rule_query_construction (env : Env) (input : String)
    (h0 : containsL "remind me in".data (normalizeText input) = false)
    (h1 : startsWithL "set reminder".data (normalizeText input) = false)
    (h2 : startsWithL "remind me to".data (normalizeText input) = false)
    (h3 : containsL "weather".data (normalizeText input) = false)
    (h4 : containsL "news".data (normalizeText input) = false)
    (h5 : containsL "headlines".data (normalizeText input) = false)
    (h6 : containsL "time".data (normalizeText input) = false)
    (h7 : containsL "date".data (normalizeText input) = false)
    (h8 : (startsWithL "search for".data (normalizeText input) ||
      startsWithL "google".data (normalizeText input) ||
      containsL "search".data (normalizeText input)) = true) :
    (searchQuery (normalizeText input) ≠ [] →
      handle_command env input =
        [Effect.speak ("Searching for " ++
           String.mk (searchQuery (normalizeText input)) ++ " on the web."),
         Effect.browse (String.mk (searchQuery (normalizeText input)))]) ∧
    (searchQuery (normalizeText input) = [] →
      handle_command env input =
        Effect.speak "What should I search for?" ::
          (if env.reply1 = "" then []
           else [Effect.speak ("Searching for " ++ env.reply1 ++ " on the web."),
                 Effect.browse env.reply1])) :=
  handleText_search env (normalizeText input) h0 h1 h2 h3 h4 h5 h6 h7 h8

/-- Witness for C10 at `"research cats"`: `"search"` matches inside
`"research"`, and deleting the substrings turns the text into the query
`"re cats"`, which is what gets browsed. -/
theorem search_rule_query_construction_inst :
    handle_command env0 "research cats" =
      [Effect.speak "Searching for re cats on the web.",
       Effect.browse "re cats"] := by
  have h := (search_rule_query_construction env0 "research cats" (by decide)
    (by decide) (by decide) (by decide) (by decide) (by decide) (by decide)
    (by decide) (by decide)).1 (by decide)
  exact h
